import Mathlib

/-!
Verification of the scan-orchestration and motor-communication core of
`Traffic Counter/Traffic_Control.py` (Smart-Traffic-Control).

The Python program drives a stepper-motor camera rig through four quadrant
positions, captures an image at each, counts vehicles per side, sorts the
sides by descending count, and sends a priority command `O<digits>` to an
Arduino over a serial link.  The definitions below are a shallow embedding
of that code: external effects (serial port, ESP32 camera, YOLO detector,
OpenCV playback) are parameters supplied by a `ScanEnv` environment, and
the orchestration logic is translated function-by-function from the source.
-/

namespace TrafficControl

/-- Constant `DELAY_BETWEEN_CYCLES = 5.0` (seconds), line 14 of the source. -/
def DELAY_BETWEEN_CYCLES : ℚ := 5

/-- Constant `DELAY_BETWEEN_TURNS = 3.0` (seconds), line 16 of the source: pause after a
turn before the next action. -/
def DELAY_BETWEEN_TURNS : ℚ := 3

/-- The 10-second budget of the `while time.time() - start_wait < 10` ack-wait
loop (line 414 of the source). -/
def TURN_ACK_MAX_WAIT : ℚ := 10

/-- Models `read_arduino_response()` (source lines 98-107).
`serAvail` is the truthiness of `ser`, `inWaiting` is `ser.in_waiting`, and
`readline` is the outcome of `ser.readline().decode('utf-8')`: `none` when the
read or decode raises (the `except` branch prints and falls through to
`return None`), `some raw` when a raw line was read.  The Python code strips
the line and returns it only when non-empty; every other path returns `None`. -/
def read_arduino_response (serAvail : Bool) (inWaiting : Nat)
    (readline : Option String) : Option String :=
  if serAvail ∧ 0 < inWaiting then
    match readline with
    | some raw => if raw.trim = "" then none else some raw.trim
    | none => none
  else
    none

/-- Models the ack-wait loop of `perform_full_scan` (source lines 412-425):
each element of `polls` is one `read_arduino_response()` outcome observed
inside the 10-second window (the environment decides how many 0.1 s polls fit
in the budget; the list ends when the budget elapses).  The loop breaks as
soon as `"TURN_DONE"` arrives and prints every other non-`None` line as
`Arduino: <line>`.  Returns `(turn_done, logged lines)`. -/
def waitForTurnAck : List (Option String) → Bool × List String
  | [] => (false, [])
  | none :: rest => waitForTurnAck rest
  | some line :: rest =>
    if line = "TURN_DONE" then (true, [])
    else
      let r := waitForTurnAck rest
      (r.1, line :: r.2)

/-- Models `current_side = (4 - i) if is_clockwise else (i + 1)` (source line 384). -/
def current_side (is_clockwise : Bool) (i : Nat) : Nat :=
  if is_clockwise then 4 - i else i + 1

/-- The side labels visited by the `for i in range(4)` loop, in visit order. -/
def sideOrder (is_clockwise : Bool) : List Nat :=
  (List.range 4).map (current_side is_clockwise)

/-- Models `turn_command = 'R' if is_clockwise else 'T'` (source line 407). -/
def turn_command (is_clockwise : Bool) : String :=
  if is_clockwise then "R" else "T"

/-- The external world one call of `perform_full_scan` interacts with.
`Img` abstracts an OpenCV image (a numpy array). -/
structure ScanEnv (Img : Type) where
  /-- Truth of `ser and ser.is_open` (source line 362). -/
  serOpen : Bool
  /-- Outcome of `capture_image_from_esp32(CAMERA_URL)` at loop index `i`
  (source line 388): `none` on timeout / transport / decode failure. -/
  frames : Nat → Option Img
  /-- Outcome of `cv2.rotate(img, cv2.ROTATE_180)` (source line 394):
  `none` models the rotated-image-is-None check on line 395. -/
  rotate : Img → Option Img
  /-- Outcome of `process_and_annotate_image(img, side)` (source lines
  133-213): `none` models the early-return-0 paths on an invalid image (no
  annotated artifact saved); `some c` means YOLO counted `c` vehicles and an
  annotated image was appended to `saved_annotated_image_paths`. -/
  process : Img → Option Nat
  /-- The `read_arduino_response()` outcomes observed inside the 10-second
  ack window after the turn issued at loop index `i` (source lines 412-422). -/
  ackPolls : Nat → List (Option String)
  /-- Truth of `cv2.imread(img_path) is not None` for the k-th playback
  iteration (source lines 479-483). -/
  loadOk : Nat → Bool
  /-- Value of `cv2.waitKey(DISPLAY_DURATION_MS) & 0xFF` for the k-th playback
  iteration (source line 500). -/
  playKey : Nat → Nat

/-- The image (if any) held for a side after capture and rotation: the
composition of lines 388-403 for loop index `i`. -/
def captureOutcome {Img : Type} (env : ScanEnv Img) (i : Nat) : Option Img :=
  match env.frames i with
  | none => none
  | some img => env.rotate img

/-- Models `captured_raw_images_data` at the end of the capture phase (source lines
380-403): one `(current_side, image-or-None)` entry appended per loop index. -/
def captured_raw_images_data {Img : Type} (env : ScanEnv Img)
    (is_clockwise : Bool) : List (Nat × Option Img) :=
  (List.range 4).map fun i => (current_side is_clockwise i, captureOutcome env i)

/-- The count stored in `side_vehicle_counts[side_num]` for one entry of
`captured_raw_images_data` (source lines 435-443): 0 when capture failed,
otherwise the `process_and_annotate_image` result (0 when it bailed out on an
invalid image). -/
def sideCountOf {Img : Type} (process : Img → Option Nat) : Option Img → Nat
  | some img => (process img).getD 0
  | none => 0

/-- Models `side_vehicle_counts` as built by the analysis loop (source lines
433-443).  Python dicts preserve insertion order and the four side keys are
distinct, so the dict is an association list in visit order. -/
def side_vehicle_counts {Img : Type} (process : Img → Option Nat)
    (data : List (Nat × Option Img)) : List (Nat × Nat) :=
  data.map fun p => (p.1, sideCountOf process p.2)

/-- Insert one entry into a descending-by-count list, after any earlier entry
of greater-or-equal count.  Helper for `sorted_sides`. -/
def insertDesc (x : Nat × Nat) : List (Nat × Nat) → List (Nat × Nat)
  | [] => [x]
  | y :: ys => if y.2 ≤ x.2 then x :: y :: ys else y :: insertDesc x ys

/-- Stable descending insertion sort by the count component.  Helper for
`sorted_sides`. -/
def sortDesc : List (Nat × Nat) → List (Nat × Nat)
  | [] => []
  | x :: xs => insertDesc x (sortDesc xs)

/-- Models `sorted_sides = sorted(side_vehicle_counts.items(), key=lambda item:
item[1], reverse=True)` (source line 448).  Python's `sorted` is a stable
sort, and `reverse=True` does not reorder equal keys; `sortDesc` is a stable
descending sort by count (see `sortDesc_perm`, `sortDesc_pairwise`,
`sortDesc_stable`), hence computes the same list. -/
def sorted_sides (counts : List (Nat × Nat)) : List (Nat × Nat) :=
  sortDesc counts

/-- The PriorityOrder: side labels of `sorted_sides` in order. -/
def priority_order (counts : List (Nat × Nat)) : List Nat :=
  (sorted_sides counts).map Prod.fst

/-- Models `priority_order_str = "".join([str(side) for side, count in
sorted_sides])` (source line 455). -/
def priority_order_str (counts : List (Nat × Nat)) : String :=
  String.join ((sorted_sides counts).map fun p => toString p.1)

/-- Models `priority_command = "O" + priority_order_str` (source line 458). -/
def priority_command (counts : List (Nat × Nat)) : String :=
  "O" ++ priority_order_str counts

/-- The sides whose processing saved an annotated image, in analysis order:
`saved_annotated_image_paths` after the analysis loop, with each path
identified by its side label (one path is appended per successfully processed
image, source line 210). -/
def saved_annotated_image_paths {Img : Type} (process : Img → Option Nat)
    (data : List (Nat × Option Img)) : List Nat :=
  data.filterMap fun p =>
    match p.2 with
    | some img => if (process img).isSome then some p.1 else none
    | none => none

/-- The playback loop over `saved_annotated_image_paths` (source lines
470-504), starting at display iteration `k`: a path whose image fails to load
is skipped (`continue`), otherwise the image is shown and a key is read;
ESC (27) or `q` (113) sets `should_continue_looping = False` and breaks. -/
def playback {Img : Type} (env : ScanEnv Img) : List Nat → Nat → Bool
  | [], _ => true
  | _ :: rest, k =>
    if env.loadOk k then
      if env.playKey k = 27 ∨ env.playKey k = 113 then false
      else playback env rest (k + 1)
    else playback env rest (k + 1)

/-- Observable hardware-facing steps of one `perform_full_scan` call, in
program order (capture attempts, serial sends, ack waits, settle delays). -/
inductive ScanEvent
  /-- Event: `capture_image_from_esp32` invoked for a side (source line 388). -/
  | captureAttempt (side : Nat)
  /-- Event: `send_arduino_command(cmd)` (source lines 409 and 460). -/
  | sendCmd (cmd : String)
  /-- The ack-wait loop finished with this `turn_done` value (lines 412-425). -/
  | ackWait (turnDone : Bool)
  /-- Event: `time.sleep(seconds)` settle pause after a turn (source line 428). -/
  | settle (seconds : ℚ)
deriving DecidableEq

/-- The events of one iteration of the capture loop (source lines 382-428):
a capture attempt, then — on every index but the last — the turn command,
the ack wait, and the unconditional settle delay. -/
def iterationEvents {Img : Type} (env : ScanEnv Img) (is_clockwise : Bool)
    (i : Nat) : List ScanEvent :=
  ScanEvent.captureAttempt (current_side is_clockwise i) ::
    (if i < 3 then
      [ScanEvent.sendCmd (turn_command is_clockwise),
       ScanEvent.ackWait (waitForTurnAck (env.ackPolls i)).1,
       ScanEvent.settle DELAY_BETWEEN_TURNS]
    else [])

/-- All events of the capture phase (`for i in range(4)`, source line 382). -/
def captureEvents {Img : Type} (env : ScanEnv Img) (is_clockwise : Bool) :
    List ScanEvent :=
  ((List.range 4).map (iterationEvents env is_clockwise)).flatten

/-- Models `perform_full_scan(is_clockwise)` (source lines 357-509), returning the
`should_continue_looping` flag together with the trace of hardware-facing
events.  If the Arduino link is not open it returns `True` at once (line
364) having done nothing; otherwise it runs the capture phase, the analysis
phase, sends the priority command when `priority_order_str` is non-empty
(line 457), and plays back the annotated images. -/
def perform_full_scan {Img : Type} (env : ScanEnv Img) (is_clockwise : Bool) :
    Bool × List ScanEvent :=
  if env.serOpen then
    let data := captured_raw_images_data env is_clockwise
    let counts := side_vehicle_counts env.process data
    let prioEvents :=
      if priority_order_str counts = "" then []
      else [ScanEvent.sendCmd (priority_command counts)]
    (playback env (saved_annotated_image_paths env.process data) 0,
     captureEvents env is_clockwise ++ prioEvents)
  else
    (true, [])

/-- The PriorityOrder computed by one full cycle. -/
def cyclePriorityOrder {Img : Type} (env : ScanEnv Img)
    (is_clockwise : Bool) : List Nat :=
  priority_order (side_vehicle_counts env.process
    (captured_raw_images_data env is_clockwise))

/-- The priority command sent by one full cycle. -/
def cyclePriorityCommand {Img : Type} (env : ScanEnv Img)
    (is_clockwise : Bool) : String :=
  priority_command (side_vehicle_counts env.process
    (captured_raw_images_data env is_clockwise))

/-- The loop variables of `run_continuous_scan_loop` (source lines 337-338). -/
structure LoopState where
  cycleCount : Nat
  isClockwise : Bool
deriving DecidableEq

/-- Initial state `cycle_count = 1`, `is_clockwise = False` (source lines 337-338). -/
def initLoopState : LoopState := { cycleCount := 1, isClockwise := false }

/-- The state of `run_continuous_scan_loop` (source lines 340-355) after `k`
completed iterations of its `while True` body, given the environment each
cycle runs against; `none` once `perform_full_scan` has returned `False` and
the loop has exited.  Each completed iteration flips `is_clockwise` and
increments `cycle_count`. -/
def loopStateAfter {Img : Type} (envs : Nat → ScanEnv Img) :
    Nat → Option LoopState
  | 0 => some initLoopState
  | k + 1 =>
    match loopStateAfter envs k with
    | none => none
    | some s =>
      if (perform_full_scan (envs s.cycleCount) s.isClockwise).1 then
        some { cycleCount := s.cycleCount + 1, isClockwise := !s.isClockwise }
      else
        none

/-- Environment of a cycle in which the link is open but all four captures
fail; no annotated image exists, so playback shows nothing. -/
def envAllFail : ScanEnv Unit :=
  { serOpen := true
    frames := fun _ => none
    rotate := fun img => some img
    process := fun _ => some 0
    ackPolls := fun _ => []
    loadOk := fun _ => false
    playKey := fun _ => 0 }

/-- Environment with the Arduino link closed. -/
def envClosed : ScanEnv Unit :=
  { serOpen := false
    frames := fun _ => none
    rotate := fun img => some img
    process := fun _ => some 0
    ackPolls := fun _ => []
    loadOk := fun _ => false
    playKey := fun _ => 0 }

/-! ### Properties of the stable descending sort -/

theorem insertDesc_perm (x : Nat × Nat) :
    ∀ l : List (Nat × Nat), List.Perm (insertDesc x l) (x :: l)
  | [] => List.Perm.refl _
  | y :: ys => by
    rw [insertDesc]
    split
    · exact List.Perm.refl _
    · exact ((insertDesc_perm x ys).cons y).trans (List.Perm.swap x y ys)

theorem sortDesc_perm : ∀ l : List (Nat × Nat), List.Perm (sortDesc l) l
  | [] => List.Perm.refl _
  | x :: xs =>
    (insertDesc_perm x (sortDesc xs)).trans ((sortDesc_perm xs).cons x)

theorem sublist_insertDesc (x : Nat × Nat) :
    ∀ l : List (Nat × Nat), List.Sublist l (insertDesc x l)
  | [] => List.nil_sublist _
  | y :: ys => by
    rw [insertDesc]
    split
    · exact List.sublist_cons_self x (y :: ys)
    · exact (sublist_insertDesc x ys).cons₂ y

theorem pair_sublist_insertDesc (x y : Nat × Nat) (hle : y.2 ≤ x.2) :
    ∀ l : List (Nat × Nat), y ∈ l → List.Sublist [x, y] (insertDesc x l)
  | [], h => absurd h (List.not_mem_nil y)
  | z :: zs, h => by
    rw [insertDesc]
    split
    · exact (List.singleton_sublist.mpr h).cons₂ x
    · rename_i hz
      have hyz : y ≠ z := by
        rintro rfl
        exact hz hle
      have hmem : y ∈ zs := (List.mem_cons.mp h).resolve_left hyz
      exact (pair_sublist_insertDesc x y hle zs hmem).cons z

/-- Stability of `sortDesc`: an entry not strictly out-smaller-counted by a
later entry stays in front of it.  In particular equal counts keep their
original relative order, matching Python's stable `sorted`. -/
theorem sortDesc_stable (x y : Nat × Nat) (hle : y.2 ≤ x.2) :
    ∀ l : List (Nat × Nat), List.Sublist [x, y] l →
      List.Sublist [x, y] (sortDesc l)
  | [], h => by simp at h
  | a :: t, h => by
    rw [sortDesc]
    cases h with
    | cons _ h2 =>
      exact (sortDesc_stable x y hle t h2).trans (sublist_insertDesc a _)
    | cons₂ _ h2 =>
      have hmem : y ∈ sortDesc t :=
        (sortDesc_perm t).mem_iff.mpr (List.singleton_sublist.mp h2)
      exact pair_sublist_insertDesc x y hle _ hmem

theorem pairwise_insertDesc (x : Nat × Nat) (l : List (Nat × Nat))
    (h : l.Pairwise fun a b => b.2 ≤ a.2) :
    (insertDesc x l).Pairwise fun a b => b.2 ≤ a.2 := by
  induction l with
  | nil => simp [insertDesc]
  | cons z zs ih =>
    rw [insertDesc]
    rw [List.pairwise_cons] at h
    split
    · rename_i hz
      refine List.Pairwise.cons ?_ (List.Pairwise.cons h.1 h.2)
      intro b hb
      rcases List.mem_cons.mp hb with rfl | hb2
      · exact hz
      · exact le_trans (h.1 b hb2) hz
    · rename_i hz
      refine List.Pairwise.cons ?_ (ih h.2)
      intro b hb
      rcases List.mem_cons.mp ((insertDesc_perm x zs).mem_iff.mp hb) with rfl | hb2
      · exact le_of_lt (lt_of_not_le hz)
      · exact h.1 b hb2

/-- Output of `sortDesc` is descending in the count component: together with
`sortDesc_perm` and `sortDesc_stable` this pins `sortDesc` down as exactly
the stable descending sort that `sorted(..., key=lambda item: item[1],
reverse=True)` computes. -/
theorem sortDesc_pairwise : ∀ l : List (Nat × Nat),
    (sortDesc l).Pairwise fun a b => b.2 ≤ a.2
  | [] => List.Pairwise.nil
  | x :: xs => pairwise_insertDesc x _ (sortDesc_pairwise xs)

/-! ### The priority order is a permutation of the visited sides -/

theorem side_vehicle_counts_map_fst {Img : Type} (process : Img → Option Nat)
    (data : List (Nat × Option Img)) :
    (side_vehicle_counts process data).map Prod.fst = data.map Prod.fst := by
  simp [side_vehicle_counts]

theorem captured_map_fst {Img : Type} (env : ScanEnv Img) (d : Bool) :
    (captured_raw_images_data env d).map Prod.fst = sideOrder d := by
  simp [captured_raw_images_data, sideOrder]

theorem sideOrder_perm (d : Bool) : List.Perm (sideOrder d) [1, 2, 3, 4] := by
  cases d <;> decide

theorem cyclePriorityOrder_perm {Img : Type} (env : ScanEnv Img) (d : Bool) :
    List.Perm (cyclePriorityOrder env d) [1, 2, 3, 4] := by
  have h1 : List.Perm (cyclePriorityOrder env d)
      ((side_vehicle_counts env.process
        (captured_raw_images_data env d)).map Prod.fst) :=
    (sortDesc_perm _).map Prod.fst
  rw [side_vehicle_counts_map_fst, captured_map_fst] at h1
  exact h1.trans (sideOrder_perm d)

theorem cyclePriorityOrder_lt_ten {Img : Type} (env : ScanEnv Img) (d : Bool) :
    ∀ n ∈ cyclePriorityOrder env d, n < 10 := by
  intro n hn
  have h1 : n ∈ [1, 2, 3, 4] := (cyclePriorityOrder_perm env d).mem_iff.mp hn
  have h2 : n = 1 ∨ n = 2 ∨ n = 3 ∨ n = 4 := by simpa using h1
  omega

/-! ### Serialization of the priority command -/

theorem foldl_append_data (l : List String) :
    ∀ acc : String, (l.foldl (· ++ ·) acc).data =
      acc.data ++ (l.map String.data).flatten := by
  induction l with
  | nil => intro acc; simp
  | cons s t ih =>
    intro acc
    have : ((acc ++ s).data) = acc.data ++ s.data := by
      cases acc; cases s; rfl
    simp [List.foldl_cons, ih, this]

theorem join_data (l : List String) :
    (String.join l).data = (l.map String.data).flatten := by
  have h := foldl_append_data l ""
  simpa [String.join] using h

theorem repr_digit (n : Nat) (h : n < 10) :
    (toString n).data = [Nat.digitChar n] := by
  interval_cases n <;> decide

theorem join_digits : ∀ l : List Nat, (∀ n ∈ l, n < 10) →
    (String.join (l.map fun n => toString n)).data = l.map Nat.digitChar := by
  intro l h
  rw [join_data]
  induction l with
  | nil => rfl
  | cons n t ih =>
    have hn : n < 10 := h n (List.mem_cons_self n t)
    simp only [List.map_cons, List.flatten_cons, repr_digit n hn]
    rw [ih fun m hm => h m (List.mem_cons_of_mem n hm)]
    rfl

theorem priority_order_str_eq (counts : List (Nat × Nat)) :
    priority_order_str counts =
      String.join ((priority_order counts).map fun n => toString n) := by
  simp [priority_order_str, priority_order, List.map_map]
  rfl

theorem cyclePriorityCommand_data {Img : Type} (env : ScanEnv Img) (d : Bool) :
    (cyclePriorityCommand env d).data =
      'O' :: (cyclePriorityOrder env d).map Nat.digitChar := by
  have h1 : cyclePriorityCommand env d =
      "O" ++ priority_order_str (side_vehicle_counts env.process
        (captured_raw_images_data env d)) := rfl
  rw [h1, priority_order_str_eq]
  have h2 : ∀ s : String, ("O" ++ s).data = 'O' :: s.data := by
    intro s; cases s; rfl
  rw [h2]
  congr 1
  exact join_digits _ (cyclePriorityOrder_lt_ten env d)

theorem cyclePriorityOrderStr_ne_empty {Img : Type} (env : ScanEnv Img)
    (d : Bool) :
    priority_order_str (side_vehicle_counts env.process
      (captured_raw_images_data env d)) ≠ "" := by
  intro h
  have h1 : (cyclePriorityCommand env d).data = ['O'] := by
    have : cyclePriorityCommand env d = "O" ++ priority_order_str
        (side_vehicle_counts env.process (captured_raw_images_data env d)) :=
      rfl
    rw [this, h]
    rfl
  have h2 := cyclePriorityCommand_data env d
  rw [h1] at h2
  have h3 : (cyclePriorityOrder env d).length = 0 := by
    have := congrArg List.length h2
    simpa using this
  have h4 : (cyclePriorityOrder env d).length = 4 :=
    (cyclePriorityOrder_perm env d).length_eq
  omega

/-! ### The event trace of one scan -/

theorem scan_trace {Img : Type} (env : ScanEnv Img) (d : Bool)
    (hopen : env.serOpen = true) :
    (perform_full_scan env d).2 =
      [ScanEvent.captureAttempt (current_side d 0),
       ScanEvent.sendCmd (turn_command d),
       ScanEvent.ackWait (waitForTurnAck (env.ackPolls 0)).1,
       ScanEvent.settle DELAY_BETWEEN_TURNS,
       ScanEvent.captureAttempt (current_side d 1),
       ScanEvent.sendCmd (turn_command d),
       ScanEvent.ackWait (waitForTurnAck (env.ackPolls 1)).1,
       ScanEvent.settle DELAY_BETWEEN_TURNS,
       ScanEvent.captureAttempt (current_side d 2),
       ScanEvent.sendCmd (turn_command d),
       ScanEvent.ackWait (waitForTurnAck (env.ackPolls 2)).1,
       ScanEvent.settle DELAY_BETWEEN_TURNS,
       ScanEvent.captureAttempt (current_side d 3),
       ScanEvent.sendCmd (cyclePriorityCommand env d)] := by
  rw [perform_full_scan]
  rw [hopen]
  simp only [if_true]
  rw [if_neg (cyclePriorityOrderStr_ne_empty env d)]
  rfl

/-! ### Properties of the ack wait -/

theorem waitForTurnAck_early (post : List (Option String)) :
    ∀ pre : List (Option String),
      waitForTurnAck (pre ++ some "TURN_DONE" :: post) =
        waitForTurnAck (pre ++ [some "TURN_DONE"])
  | [] => by simp [waitForTurnAck]
  | none :: pre => by
    simpa [waitForTurnAck] using waitForTurnAck_early post pre
  | some l :: pre => by
    by_cases h : l = "TURN_DONE" <;>
      simp [waitForTurnAck, h, waitForTurnAck_early post pre]

theorem waitForTurnAck_found : ∀ polls : List (Option String),
    (waitForTurnAck polls).1 = true ↔ some "TURN_DONE" ∈ polls
  | [] => by simp [waitForTurnAck]
  | none :: rest => by
    simp [waitForTurnAck, waitForTurnAck_found rest]
  | some l :: rest => by
    by_cases h : l = "TURN_DONE"
    · simp [waitForTurnAck, h]
    · simp [waitForTurnAck, h, waitForTurnAck_found rest, Ne.symm h]

theorem waitForTurnAck_logs : ∀ polls : List (Option String),
    (waitForTurnAck polls).2 =
      (polls.takeWhile fun o => o != some "TURN_DONE").filterMap id
  | [] => rfl
  | none :: rest => by
    simp [waitForTurnAck, List.takeWhile_cons, waitForTurnAck_logs rest]
  | some l :: rest => by
    by_cases h : l = "TURN_DONE" <;>
      simp [waitForTurnAck, List.takeWhile_cons, h, waitForTurnAck_logs rest]

/-! ### Properties of the playback loop -/

/-- The k-th playback iteration observes a stop request: the image loads and
the key read during its display is ESC or `q`. -/
def stopAt {Img : Type} (env : ScanEnv Img) (i : Nat) : Prop :=
  env.loadOk i = true ∧ (env.playKey i = 27 ∨ env.playKey i = 113)

theorem shift_exists (P : Nat → Prop) (n k : Nat) (h0 : ¬ P k) :
    (∃ j, j < n ∧ P (k + 1 + j)) ↔ ∃ j, j < n + 1 ∧ P (k + j) := by
  constructor
  · rintro ⟨j, hj, hp⟩
    refine ⟨j + 1, by omega, ?_⟩
    have he : k + 1 + j = k + (j + 1) := by omega
    exact he ▸ hp
  · rintro ⟨j, hj, hp⟩
    cases j with
    | zero => exact absurd hp h0
    | succ j =>
      refine ⟨j, by omega, ?_⟩
      have he : k + (j + 1) = k + 1 + j := by omega
      exact he ▸ hp

theorem playback_false_iff {Img : Type} (env : ScanEnv Img) :
    ∀ (l : List Nat) (k : Nat),
      playback env l k = false ↔ ∃ j, j < l.length ∧ stopAt env (k + j)
  | [], k => by simp [playback]
  | a :: rest, k => by
    rw [playback]
    by_cases hl : env.loadOk k = true
    · by_cases hk : env.playKey k = 27 ∨ env.playKey k = 113
      · rw [if_pos hl, if_pos hk]
        constructor
        · intro _
          exact ⟨0, by simp, hl, hk⟩
        · intro _
          rfl
      · rw [if_pos hl, if_neg hk,
          playback_false_iff env rest (k + 1)]
        simpa using shift_exists (stopAt env) rest.length k fun hc => hk hc.2
    · rw [if_neg hl, playback_false_iff env rest (k + 1)]
      simpa using shift_exists (stopAt env) rest.length k fun hc => hl hc.1

/-! ### Properties of the continuous loop -/

theorem loopStateAfter_some {Img : Type} (envs : Nat → ScanEnv Img) :
    ∀ (k : Nat) (s : LoopState), loopStateAfter envs k = some s →
      s.cycleCount = k + 1 ∧ s.isClockwise = decide (k % 2 = 1) := by
  intro k
  induction k with
  | zero =>
    intro s hs
    simp only [loopStateAfter] at hs
    cases hs
    exact ⟨rfl, rfl⟩
  | succ k ih =>
    intro s hs
    rw [loopStateAfter] at hs
    rcases h : loopStateAfter envs k with _ | t
    · rw [h] at hs; exact absurd hs (by simp)
    · rw [h] at hs
      simp only at hs
      split at hs
      · cases hs
        have ht := ih t h
        refine ⟨by simp [ht.1], ?_⟩
        simp only [ht.2]
        rcases Nat.mod_two_eq_zero_or_one k with he | he <;> simp [he, Nat.add_mod, he]
      · exact absurd hs (by simp)

/-- Environment of a Forward cycle realizing the counts {1:2, 2:5, 3:5, 4:0}:
every capture succeeds (the image is its loop index) and the detector counts
2, 5, 5, 0 vehicles on the four sides visited in Forward order. -/
def envCounts : ScanEnv Nat :=
  { serOpen := true
    frames := fun i => some i
    rotate := fun img => some img
    process := fun img => some ([2, 5, 5, 0].getD img 0)
    ackPolls := fun _ => []
    loadOk := fun _ => false
    playKey := fun _ => 0 }

/-! ### Claims -/

/-- Claim C1, counterexample: in a Reverse (clockwise) cycle in which all
four captures fail, every side has count 0, yet the PriorityOrder is
[4, 3, 2, 1], not [1, 2, 3, 4]: among equal counts the position with the
smaller index does NOT come first. -/
theorem C1_counterexample :
    cyclePriorityOrder envAllFail true = [4, 3, 2, 1] ∧
      sorted_sides (side_vehicle_counts envAllFail.process
        (captured_raw_images_data envAllFail true)) =
        [(4, 0), (3, 0), (2, 0), (1, 0)] ∧
      cyclePriorityOrder envAllFail true ≠ [1, 2, 3, 4] := by
  decide

/-- Claim C1, amended: ties are broken by the cycle's encounter (capture)
order, not by position index: for every cycle and assignment of counts, two
positions with equal counts appear in the PriorityOrder in the order they
were captured; hence with all counts 0 a Forward cycle yields [1, 2, 3, 4]
while a Reverse cycle yields [4, 3, 2, 1]. -/
theorem C1_amended {Img : Type} (env : ScanEnv Img) (d : Bool)
    (x y : Nat × Nat)
    (hsub : List.Sublist [x, y] (side_vehicle_counts env.process
      (captured_raw_images_data env d)))
    (heq : x.2 = y.2) :
    List.Sublist [x, y] (sorted_sides (side_vehicle_counts env.process
      (captured_raw_images_data env d))) ∧
    (∀ envA : ScanEnv Unit, (∀ i, envA.frames i = none) →
      cyclePriorityOrder envA false = [1, 2, 3, 4] ∧
        cyclePriorityOrder envA true = [4, 3, 2, 1]) := by
  constructor
  · exact sortDesc_stable x y (le_of_eq heq.symm) _ hsub
  · intro envA hA
    have hdata : ∀ dA : Bool, side_vehicle_counts envA.process
        (captured_raw_images_data envA dA) =
        [(current_side dA 0, 0), (current_side dA 1, 0),
         (current_side dA 2, 0), (current_side dA 3, 0)] := by
      intro dA
      simp [side_vehicle_counts, captured_raw_images_data, captureOutcome,
        hA, sideCountOf, List.range_succ]
    constructor
    · rw [cyclePriorityOrder, hdata false]; decide
    · rw [cyclePriorityOrder, hdata true]; decide

/-- Witness for C1_amended: in the all-captures-fail Forward cycle, sides 1
and 2 both have count 0 and side 1, captured first, stays first. -/
theorem C1_amended_witness :
    List.Sublist [(1, 0), (2, 0)] (sorted_sides (side_vehicle_counts
      envAllFail.process (captured_raw_images_data envAllFail false))) :=
  (C1_amended envAllFail false (1, 0) (2, 0) (by decide) rfl).1

/-- Claim C2: with the counts {1:2, 2:5, 3:5, 4:0} recorded in Forward
encounter order, the Priority Decision yields the order [2, 3, 1, 4] and the
serialized motor command "O2314" — both on the bare count list and through a
full Forward cycle realizing those counts. -/
theorem C2 :
    priority_order [(1, 2), (2, 5), (3, 5), (4, 0)] = [2, 3, 1, 4] ∧
      priority_command [(1, 2), (2, 5), (3, 5), (4, 0)] = "O2314" ∧
      cyclePriorityOrder envCounts false = [2, 3, 1, 4] ∧
      cyclePriorityCommand envCounts false = "O2314" := by
  decide

/-- Claim C3: for every environment and scan direction, the PriorityOrder of
a cycle is a permutation of [1, 2, 3, 4], and the command sent over the
motor link is the character 'O' followed by exactly those four digits. -/
theorem C3 {Img : Type} (env : ScanEnv Img) (d : Bool) :
    List.Perm (cyclePriorityOrder env d) [1, 2, 3, 4] ∧
    (cyclePriorityCommand env d).data =
      'O' :: (cyclePriorityOrder env d).map Nat.digitChar ∧
    (env.serOpen = true →
      ScanEvent.sendCmd (cyclePriorityCommand env d) ∈
        (perform_full_scan env d).2) := by
  refine ⟨cyclePriorityOrder_perm env d, cyclePriorityCommand_data env d, ?_⟩
  intro hopen
  rw [scan_trace env d hopen]
  simp

/-- Witness for C3: in the all-captures-fail Forward cycle the command
"O1234" is sent to the link. -/
theorem C3_witness :
    ScanEvent.sendCmd (cyclePriorityCommand envAllFail false) ∈
      (perform_full_scan envAllFail false).2 :=
  (C3 envAllFail false).2.2 rfl

/-- Claim C4: every cycle records exactly 4 SideCount entries, one per
visited position in visit order; a position whose capture failed (no frame,
or rotation returned nothing) or whose detection step bailed out yields the
entry (side, 0) rather than a missing entry, and the remaining entries are
still all present. -/
theorem C4 {Img : Type} (env : ScanEnv Img) (d : Bool) (i : Fin 4)
    (hfail : captureOutcome env i = none ∨
      ∃ img, captureOutcome env i = some img ∧ env.process img = none) :
    (side_vehicle_counts env.process
        (captured_raw_images_data env d)).length = 4 ∧
    (side_vehicle_counts env.process
        (captured_raw_images_data env d)).map Prod.fst = sideOrder d ∧
    (side_vehicle_counts env.process
        (captured_raw_images_data env d)).get? i.val =
      some (current_side d i.val, 0) := by
  have hzero : sideCountOf env.process (captureOutcome env i.val) = 0 := by
    rcases hfail with h | ⟨img, h1, h2⟩
    · rw [h]
      rfl
    · rw [h1]
      simp [sideCountOf, h2]
  refine ⟨rfl, ?_, ?_⟩
  · rw [side_vehicle_counts_map_fst, captured_map_fst]
  · have hget : (side_vehicle_counts env.process
        (captured_raw_images_data env d)).get? i.val =
        some (current_side d i.val,
          sideCountOf env.process (captureOutcome env i.val)) := by
      fin_cases i <;> rfl
    rw [hget, hzero]

/-- Witness for C4: the all-captures-fail cycle still records 4 entries with
sides [1, 2, 3, 4] and entry (1, 0) at index 0. -/
theorem C4_witness :
    (side_vehicle_counts envAllFail.process
        (captured_raw_images_data envAllFail false)).length = 4 ∧
    (side_vehicle_counts envAllFail.process
        (captured_raw_images_data envAllFail false)).map Prod.fst =
      sideOrder false ∧
    (side_vehicle_counts envAllFail.process
        (captured_raw_images_data envAllFail false)).get? 0 =
      some (current_side false 0, 0) :=
  C4 envAllFail false 0 (Or.inl rfl)

/-- Claim C5: for every loop index i in 0..3 the side label is i + 1 when
scanning Forward (counter-clockwise) and 4 - i when scanning Reverse
(clockwise), so a Forward cycle visits [1, 2, 3, 4] and a Reverse cycle
visits [4, 3, 2, 1]. -/
theorem C5 :
    (∀ i : Fin 4, current_side false i.val = i.val + 1 ∧
      current_side true i.val = 4 - i.val) ∧
    sideOrder false = [1, 2, 3, 4] ∧ sideOrder true = [4, 3, 2, 1] := by
  decide

/-- Claim C6: when the Arduino link is not open, `perform_full_scan` returns
the continue flag at once with an empty event trace: no capture, no turn, no
ack wait, no priority command. -/
theorem C6 {Img : Type} (env : ScanEnv Img) (d : Bool)
    (h : env.serOpen = false) :
    perform_full_scan env d = (true, []) := by
  simp [perform_full_scan, h]

/-- Witness for C6, at the concrete closed-link environment. -/
theorem C6_witness : perform_full_scan envClosed false = (true, []) :=
  C6 envClosed false rfl

/-- Claim C7: with the link open, each of the three non-final positions
produces — after its capture attempt — the direction's turn command, an ack
wait, and the unconditional 3.0 s settle delay, in that order and whatever
the ack outcome; no turn follows the last position, only the priority
command.  The ack wait stops at the first "TURN_DONE" (further polls are
irrelevant) and reports success exactly when "TURN_DONE" arrived within the
budget window. -/
theorem C7 {Img : Type} (env : ScanEnv Img) (d : Bool)
    (hopen : env.serOpen = true) :
    ((perform_full_scan env d).2 =
      [ScanEvent.captureAttempt (current_side d 0),
       ScanEvent.sendCmd (turn_command d),
       ScanEvent.ackWait (waitForTurnAck (env.ackPolls 0)).1,
       ScanEvent.settle DELAY_BETWEEN_TURNS,
       ScanEvent.captureAttempt (current_side d 1),
       ScanEvent.sendCmd (turn_command d),
       ScanEvent.ackWait (waitForTurnAck (env.ackPolls 1)).1,
       ScanEvent.settle DELAY_BETWEEN_TURNS,
       ScanEvent.captureAttempt (current_side d 2),
       ScanEvent.sendCmd (turn_command d),
       ScanEvent.ackWait (waitForTurnAck (env.ackPolls 2)).1,
       ScanEvent.settle DELAY_BETWEEN_TURNS,
       ScanEvent.captureAttempt (current_side d 3),
       ScanEvent.sendCmd (cyclePriorityCommand env d)]) ∧
    (∀ pre post : List (Option String),
      waitForTurnAck (pre ++ some "TURN_DONE" :: post) =
        waitForTurnAck (pre ++ [some "TURN_DONE"])) ∧
    (∀ polls : List (Option String),
      (waitForTurnAck polls).1 = true ↔ some "TURN_DONE" ∈ polls) :=
  ⟨scan_trace env d hopen, fun pre post => waitForTurnAck_early post pre,
    waitForTurnAck_found⟩

/-- Witness for C7: the concrete trace of the all-captures-fail Forward
cycle (the ack wait times out on each turn, the settle delay still runs,
and the final command is "O1234"). -/
theorem C7_witness :
    (perform_full_scan envAllFail false).2 =
      [ScanEvent.captureAttempt 1, ScanEvent.sendCmd "T",
       ScanEvent.ackWait false, ScanEvent.settle DELAY_BETWEEN_TURNS,
       ScanEvent.captureAttempt 2, ScanEvent.sendCmd "T",
       ScanEvent.ackWait false, ScanEvent.settle DELAY_BETWEEN_TURNS,
       ScanEvent.captureAttempt 3, ScanEvent.sendCmd "T",
       ScanEvent.ackWait false, ScanEvent.settle DELAY_BETWEEN_TURNS,
       ScanEvent.captureAttempt 4, ScanEvent.sendCmd "O1234"] :=
  (C7 envAllFail false rfl).1

/-- Claim C8: the continuous loop starts cycle 1 with the Forward
(counter-clockwise) direction, flips the direction exactly once per
completed cycle — whatever happened inside the cycle — and exits only when
`perform_full_scan` returns the stop flag. -/
theorem C8 {Img : Type} (envs : Nat → ScanEnv Img) :
    (initLoopState.cycleCount = 1 ∧ initLoopState.isClockwise = false) ∧
    (∀ k s, loopStateAfter envs k = some s →
      s.cycleCount = k + 1 ∧ s.isClockwise = decide (k % 2 = 1)) ∧
    (∀ k s t, loopStateAfter envs k = some s →
      loopStateAfter envs (k + 1) = some t →
        t.isClockwise = !s.isClockwise ∧ t.cycleCount = s.cycleCount + 1) ∧
    (∀ k s, loopStateAfter envs k = some s →
      loopStateAfter envs (k + 1) = none →
        (perform_full_scan (envs s.cycleCount) s.isClockwise).1 = false) := by
  refine ⟨⟨rfl, rfl⟩, loopStateAfter_some envs, ?_, ?_⟩
  · intro k s t hs ht
    rw [loopStateAfter, hs] at ht
    simp only at ht
    split at ht
    · cases ht
      exact ⟨rfl, rfl⟩
    · exact absurd ht (by simp)
  · intro k s hs hnone
    rw [loopStateAfter, hs] at hnone
    simp only at hnone
    split at hnone
    · exact absurd hnone (by simp)
    · rename_i hres
      exact Bool.not_eq_true _ ▸ hres

/-- Witness for C8: with every cycle continuing, after one completed cycle
the loop is at cycle 2 scanning clockwise. -/
theorem C8_witness :
    ({ cycleCount := 2, isClockwise := true } : LoopState).cycleCount =
        1 + 1 ∧
      ({ cycleCount := 2, isClockwise := true } : LoopState).isClockwise =
        decide (1 % 2 = 1) :=
  (C8 (fun _ => envAllFail)).2.1 1 { cycleCount := 2, isClockwise := true }
    rfl

/-- Claim C9: `read_arduino_response` returns None exactly when no complete
line is available (connection absent, nothing waiting, a failed read/decode,
or a whitespace-only line); and the ack wait logs exactly the non-matching
non-empty lines received before "TURN_DONE" — none is silently dropped or
turned into an error. -/
theorem C9 :
    (∀ (serAvail : Bool) (w : Nat) (line : Option String),
      read_arduino_response serAvail w line = none ↔
        (serAvail = false ∨ w = 0 ∨ line = none ∨
          ∃ raw, line = some raw ∧ raw.trim = "")) ∧
    (∀ polls : List (Option String),
      (waitForTurnAck polls).2 =
        (polls.takeWhile fun o => o != some "TURN_DONE").filterMap id) := by
  refine ⟨?_, waitForTurnAck_logs⟩
  intro serAvail w line
  rw [read_arduino_response.eq_def]
  by_cases hs : serAvail = true
  · cases w with
    | zero => simp [hs]
    | succ w =>
      cases line with
      | none => simp [hs]
      | some raw =>
        by_cases ht : raw.trim = "" <;> simp [hs, ht]
  · have : serAvail = false := by
      cases serAvail
      · rfl
      · exact absurd rfl hs
    simp [this]

/-- Claim C10: `perform_full_scan` returns the stop flag (False) exactly
when the link was open and some playback iteration both loaded its annotated
image and observed ESC (27) or `q` (113) during its display; every other
path — closed link, failed captures, ack timeouts, nothing to display, or
unloadable images — returns the continue flag (True). -/
theorem C10 {Img : Type} (env : ScanEnv Img) (d : Bool) :
    (perform_full_scan env d).1 = false ↔
      env.serOpen = true ∧
        ∃ j, j < (saved_annotated_image_paths env.process
            (captured_raw_images_data env d)).length ∧
          env.loadOk j = true ∧
          (env.playKey j = 27 ∨ env.playKey j = 113) := by
  by_cases h : env.serOpen = true
  · rw [perform_full_scan, h]
    simp only [if_true, h, true_and]
    have := playback_false_iff env
      (saved_annotated_image_paths env.process
        (captured_raw_images_data env d)) 0
    simpa [stopAt] using this
  · rw [perform_full_scan]
    have hf : env.serOpen = false := by
      cases he : env.serOpen
      · rfl
      · exact absurd he h
    rw [hf]
    simp [hf]

end TrafficControl
